import Mathlib

/-!
Shallow embedding of the multiplexed remote-console subsystem of the
Starlight hypervisor web UI, translated from
`src/var/www/html/js/console-manager.js`, `src/var/www/html/js/vnc-viewer.js`
and `src/var/www/html/js/terminal.js`.

Modelling conventions:
* The page's global mutable state (the `consoleSessions` Map,
  `activeSessionId`, the per-module Maps `rfbClients`, `vncSessions`,
  `termInstances`, `termSockets`, `termSessions`, and the relevant DOM
  pieces: the tab bar, the per-session content panes, the per-session
  status `<span>` elements, and the console-viewer hidden flag) is one
  record `ConsoleState`; each JS function or event handler becomes a pure
  state-transformer.
* JS `Map` objects are insertion-ordered association lists
  `List (Nat × α)`; `Map.set` updates an existing key in place and
  appends fresh keys at the end, `Map.delete` removes the entry, and
  `Map.keys().next().value` is the head key — all mirrored exactly.
* Session identifiers (`console-${Date.now()}-${random}` strings, assumed
  process-unique) are modelled as `Nat`s drawn from a monotone counter
  `nextId`; an id is never reused.  RFB client objects are likewise
  opaque handles drawn from `nextHandle`.
* `setTimeout(() => closeTab(sid), d)` is modelled by appending
  `(sid, d)` to `pendingCloses`; firing such a timer is applying
  `closeTab sid`.
* `window.API.apiCall` performing the management command is modelled by
  logging the request in `apiCalls` and taking the awaited response as an
  explicit argument (`Option ApiResult`; `none` is a falsy/failed result).
* `window.UI.showStatus(msg, level)` banners are logged in `uiBanners`.
* `rfbClient.disconnect()` and `socket.close()` calls are logged in
  `disconnectedHandles` / `closedSockets` so that resource release is
  observable after the handle leaves its map.
-/

/-- Session kind: the JS code stores the string `'vnc'` or `'terminal'`
in the session's `type` field. -/
inductive SessionKind where
  | vnc
  | terminal
deriving DecidableEq, Repr

/-- A `ConsoleSession` object as built by `openConsole`
(console-manager.js lines 48–55).  The JS field `instance` (which holds
the VNC rfb client or terminal instance once connected) is named `inst`
here because `instance` is a Lean keyword. -/
structure Session where
  id : Nat
  name : String
  kind : SessionKind
  port : Option Nat
  icon : Option String
  inst : Option Nat
deriving DecidableEq, Repr

/-- A per-session status `<span>` element: its `textContent` and
`className`. -/
structure StatusEl where
  text : String
  cls : String
deriving DecidableEq, Repr

/-- An xterm.js terminal instance: the sequence of strings passed to
`terminal.write` (in order), and whether `dispose()` was called. -/
structure Term where
  written : List String
  disposed : Bool
deriving DecidableEq, Repr

/-- A WebSocket for a text session. -/
structure Sock where
  closed : Bool
deriving DecidableEq, Repr

/-- Entry of the `vncSessions` Map (vnc-viewer.js lines 260–265). -/
structure VncInfo where
  vmName : String
  port : Nat
  canvasContainerId : String
  statusElementId : String
deriving DecidableEq, Repr

/-- Entry of the `termSessions` Map (terminal.js lines 258–262). -/
structure TermInfo where
  containerName : String
  terminalContainerId : String
  statusElementId : String
deriving DecidableEq, Repr

/-- Result object of a management-command API call; the code checks
`result.status === 'success'`. -/
structure ApiResult where
  status : String
deriving DecidableEq, Repr

/-! ### JS `Map` semantics over association lists -/

/-- `Map.get k`. -/
def mapLookup {α : Type} (k : Nat) : List (Nat × α) → Option α
  | [] => none
  | p :: m => if p.1 = k then some p.2 else mapLookup k m

/-- `Map.set k v`: update an existing key in place, else append at the
end (JS Maps are insertion-ordered). -/
def mapSet {α : Type} (k : Nat) (v : α) : List (Nat × α) → List (Nat × α)
  | [] => [(k, v)]
  | p :: m => if p.1 = k then (k, v) :: m else p :: mapSet k v m

/-- `Map.delete k`. -/
def mapErase {α : Type} (k : Nat) : List (Nat × α) → List (Nat × α)
  | [] => []
  | p :: m => if p.1 = k then mapErase k m else p :: mapErase k m

/-! ### The global state -/

/-- The whole mutable state shared by the three modules. -/
structure ConsoleState where
  /-- console-manager.js `consoleSessions` Map (sessionId → session). -/
  consoleSessions : List (Nat × Session)
  /-- console-manager.js `activeSessionId`. -/
  activeSessionId : Option Nat
  /-- whether the `console-viewer` element has the `hidden` class. -/
  consoleViewerHidden : Bool
  /-- the tab bar: one `tab-${sessionId}` button per session, in DOM order. -/
  tabs : List Nat
  /-- the `console-content` panes, one per session, in DOM order. -/
  containers : List Nat
  /-- the `status-${sessionId}` spans. -/
  statusEls : List (Nat × StatusEl)
  /-- `window.UI.showStatus` banner log: (message, level). -/
  uiBanners : List (String × String)
  /-- vnc-viewer.js `rfbClients` Map (sessionId → RFB handle). -/
  rfbClients : List (Nat × Nat)
  /-- vnc-viewer.js `vncSessions` Map. -/
  vncSessions : List (Nat × VncInfo)
  /-- handles on which `rfbClient.disconnect()` has been called. -/
  disconnectedHandles : List Nat
  /-- terminal.js `termInstances` Map. -/
  termInstances : List (Nat × Term)
  /-- terminal.js `termSockets` Map. -/
  termSockets : List (Nat × Sock)
  /-- session ids whose WebSocket got `close()` called locally. -/
  closedSockets : List Nat
  /-- terminal.js `termSessions` Map. -/
  termSessions : List (Nat × TermInfo)
  /-- scheduled `setTimeout(() => closeTab(sid), delay)` timers:
  (sessionId, delay in ms). -/
  pendingCloses : List (Nat × Nat)
  /-- management commands sent through `window.API.apiCall`:
  (endpoint, method). -/
  apiCalls : List (String × String)
  /-- generator for fresh session ids. -/
  nextId : Nat
  /-- generator for fresh RFB handles. -/
  nextHandle : Nat
deriving DecidableEq, Repr

/-- Delay before closing a console after a stop/destroy action
(console-manager.js line 11). -/
def CONTROL_ACTION_DELAY : Nat := 2000

/-- Delay before closing a terminal after a connection error
(terminal.js line 18). -/
def CONNECTION_ERROR_DELAY : Nat := 2000

/-- Delay before closing a terminal after the connection closes
(terminal.js line 19). -/
def CONNECTION_CLOSE_DELAY : Nat := 2000

/-- The id string of the canvas container pane created by
`initVncSession`. -/
def canvasId (sid : Nat) : String := "canvas-" ++ toString sid

/-- The id string of the per-session status element. -/
def statusId (sid : Nat) : String := "status-" ++ toString sid

/-- The id string of the terminal container pane created by
`initTerminalSession`. -/
def terminalContainerId (sid : Nat) : String := "terminal-" ++ toString sid

/-- Write `text`/`cls` into the session's status element
(`statusEl.textContent = …; statusEl.className = …`). -/
def setStatus (sid : Nat) (text cls : String) (st : ConsoleState) : ConsoleState :=
  { st with statusEls := mapSet sid ⟨text, cls⟩ st.statusEls }

/-- `window.UI.showStatus(msg, level)`. -/
def showStatus (msg level : String) (st : ConsoleState) : ConsoleState :=
  { st with uiBanners := st.uiBanners ++ [(msg, level)] }

/-! ### console-manager.js -/

/-- `findSessionByName` (console-manager.js lines 84–91): first entry of
the sessions Map, in insertion order, whose `name` matches. -/
def findSessionByName (name : String) (st : ConsoleState) : Option Nat :=
  (st.consoleSessions.find? (fun p => p.2.name == name)).map (·.1)

/-- `switchToTab` (lines 133–158): records the new active session; the
tab `active` classes and the pane `hidden` classes are pure functions of
`activeSessionId` and are not duplicated in the state. -/
def switchToTab (sid : Nat) (st : ConsoleState) : ConsoleState :=
  { st with activeSessionId := some sid }

/-- `createTab` (lines 96–128): appends one tab button to the tab bar;
name/type/icon only affect its markup. -/
def createTab (sid : Nat) (st : ConsoleState) : ConsoleState :=
  { st with tabs := st.tabs ++ [sid] }

/-- The synchronous prefix of `initVncSession` / `initTerminalSession`
(lines 214–251 and 266–303): append the session's content pane to the
console area with its status element showing `Connecting...`.  The
asynchronous transport launch that follows the pane creation is modelled
separately (`initVncSessionConnect`, `launchTerminalInContainer`). -/
def initSessionPane (sid : Nat) (st : ConsoleState) : ConsoleState :=
  let st1 := { st with containers := st.containers ++ [sid] }
  setStatus sid "Connecting..." "console-status console-status-info" st1

/-- `openConsole` (lines 33–79). -/
def openConsole (name : String) (kind : SessionKind) (port : Option Nat)
    (icon : Option String) (st : ConsoleState) : ConsoleState :=
  match findSessionByName name st with
  | some existingSessionId => switchToTab existingSessionId st
  | none =>
    let sid := st.nextId
    let session : Session :=
      { id := sid, name := name, kind := kind, port := port, icon := icon,
        inst := none }
    let st1 := { st with
      consoleSessions := mapSet sid session st.consoleSessions,
      nextId := st.nextId + 1,
      consoleViewerHidden := false }
    let st2 := createTab sid st1
    let st3 := switchToTab sid st2
    initSessionPane sid st3

/-- `VNCViewer.cleanupSession` (vnc-viewer.js lines 378–389): disconnect
the RFB client if present and drop it from both maps. -/
def cleanupVncSession (sid : Nat) (st : ConsoleState) : ConsoleState :=
  let st1 :=
    match mapLookup sid st.rfbClients with
    | some h =>
      { st with disconnectedHandles := st.disconnectedHandles ++ [h],
                rfbClients := mapErase sid st.rfbClients }
    | none => st
  { st1 with vncSessions := mapErase sid st1.vncSessions }

/-- `TerminalManager.cleanupSession` (terminal.js lines 409–430): close
the socket, dispose the terminal, drop all per-session entries.  (The
fit-addon map and the resize listener carry no observable state and are
elided.) -/
def cleanupTerminalSession (sid : Nat) (st : ConsoleState) : ConsoleState :=
  let st1 :=
    match mapLookup sid st.termSockets with
    | some _ =>
      { st with closedSockets := st.closedSockets ++ [sid],
                termSockets := mapErase sid st.termSockets }
    | none => st
  let st2 :=
    match mapLookup sid st1.termInstances with
    | some _ => { st1 with termInstances := mapErase sid st1.termInstances }
    | none => st1
  { st2 with termSessions := mapErase sid st2.termSessions }

/-- The part of `closeTab` after the per-kind cleanup (console-manager.js
lines 179–208): remove the tab and the content pane from the DOM, remove
the session from the Map, and if it was the active session either
switch to the first remaining session or hide the console viewer. -/
def closeTabFinish (sid : Nat) (st1 : ConsoleState) : ConsoleState :=
  let st2 := { st1 with
    tabs := st1.tabs.filter (fun t => t != sid),
    containers := st1.containers.filter (fun c => c != sid),
    statusEls := mapErase sid st1.statusEls,
    consoleSessions := mapErase sid st1.consoleSessions }
  if st2.activeSessionId = some sid then
    match st2.consoleSessions with
    | [] => { st2 with consoleViewerHidden := true, activeSessionId := none }
    | (firstSessionId, _) :: _ => switchToTab firstSessionId st2
  else st2

/-- `closeTab` (console-manager.js lines 163–209). -/
def closeTab (sid : Nat) (st : ConsoleState) : ConsoleState :=
  match mapLookup sid st.consoleSessions with
  | none => st
  | some session =>
    match session.kind with
    | .vnc => closeTabFinish sid (cleanupVncSession sid st)
    | .terminal => closeTabFinish sid (cleanupTerminalSession sid st)

/-! ### vnc-viewer.js -/

/-- The JS truthiness test `!vncPort`: true when the port argument is
absent (`null`/`undefined`) or zero. -/
def portMissing : Option Nat → Bool
  | none => true
  | some p => p == 0

/-- `launchVncInContainer` (vnc-viewer.js lines 245–366).  A missing or
zero port throws `'VNC port not available for this VM'` as the very
first statement, before any state is touched and before any RFB client
is created.  Otherwise the session info is stored, the status element
shows `Connecting...`, one fresh RFB client is created with its event
handlers (modelled as the separate step functions `vncOnConnect`,
`vncOnDisconnect`, …) and stored in `rfbClients`.  Asynchronous
connection failures arrive later through the `disconnect` event; the
construction itself is modelled as succeeding, so the only error this
function returns is the port check, which leaves the state untouched. -/
def launchVncInContainer (sid : Nat) (vmName : String) (vncPort : Option Nat)
    (st : ConsoleState) : Except String ConsoleState :=
  if portMissing vncPort then
    .error "VNC port not available for this VM"
  else
    let info : VncInfo :=
      { vmName := vmName, port := vncPort.getD 0,
        canvasContainerId := canvasId sid, statusElementId := statusId sid }
    let st1 := { st with vncSessions := mapSet sid info st.vncSessions }
    let st2 := setStatus sid "Connecting..." "console-status console-status-connecting" st1
    let h := st2.nextHandle
    .ok { st2 with rfbClients := mapSet sid h st2.rfbClients,
                   nextHandle := h + 1 }

/-- The `await launchVncInContainer(…)` continuation of `initVncSession`
(console-manager.js lines 253–261): on success the session's `instance`
field is set to the freshly stored RFB client; on failure the catch
block only shows an error banner. -/
def initVncSessionConnect (sid : Nat) (st : ConsoleState) : ConsoleState :=
  match mapLookup sid st.consoleSessions with
  | none => st
  | some session =>
    match launchVncInContainer sid session.name session.port st with
    | .ok st1 =>
      let session1 := { session with inst := mapLookup sid st1.rfbClients }
      { st1 with consoleSessions := mapSet sid session1 st1.consoleSessions }
    | .error msg =>
      showStatus ("VNC connection failed: " ++ msg) "error" st

/-- The RFB `connect` event handler of `launchVncInContainer`
(vnc-viewer.js lines 301–308). -/
def vncOnConnect (sid : Nat) (vmName : String) (st : ConsoleState) : ConsoleState :=
  let st1 := setStatus sid "Connected" "console-status console-status-connected" st
  showStatus ("VNC connected to " ++ vmName) "success" st1

/-- The RFB `disconnect` event handler of `launchVncInContainer`
(vnc-viewer.js lines 310–322): set the status to `Clean Disconnect` or
`Disconnected` with the error class, and call `ConsoleManager.closeTab`
only when the disconnect was clean. -/
def vncOnDisconnect (sid : Nat) (clean : Bool) (st : ConsoleState) : ConsoleState :=
  let statusMsg := if clean then "Clean Disconnect" else "Disconnected"
  let st1 := setStatus sid statusMsg "console-status console-status-error" st
  if clean then closeTab sid st1 else st1

/-- The RFB `securityfailure` event handler (vnc-viewer.js lines
324–331). -/
def vncOnSecurityFailure (sid : Nat) (statusDetail : String)
    (st : ConsoleState) : ConsoleState :=
  let st1 := setStatus sid "Security Error" "console-status console-status-error" st
  showStatus ("VNC Security Failure: " ++ statusDetail) "error" st1

/-! ### terminal.js -/

/-- `terminal.write(data)`: append to the terminal's output stream. -/
def termWrite (sid : Nat) (data : String) (st : ConsoleState) : ConsoleState :=
  match mapLookup sid st.termInstances with
  | some t =>
    { st with termInstances :=
        mapSet sid ({ t with written := t.written ++ [data] }) st.termInstances }
  | none => st

/-- `terminal.writeln(data)` = `write(data + "\r\n")`. -/
def termWriteln (sid : Nat) (data : String) (st : ConsoleState) : ConsoleState :=
  termWrite sid (data ++ "\r\n") st

/-- `launchTerminalInContainer` (terminal.js lines 238–397), success
path: store the session info, show `Connecting...`, create one fresh
terminal and one WebSocket whose event handlers are the step functions
`termSocketOnOpen`/`termSocketOnMessage`/`termSocketOnError`/
`termSocketOnClose`, and store them. -/
def launchTerminalInContainer (sid : Nat) (containerName : String)
    (st : ConsoleState) : ConsoleState :=
  let info : TermInfo :=
    { containerName := containerName,
      terminalContainerId := terminalContainerId sid,
      statusElementId := statusId sid }
  let st1 := { st with termSessions := mapSet sid info st.termSessions }
  let st2 := setStatus sid "Connecting..." "console-status console-status-connecting" st1
  { st2 with termInstances := mapSet sid ({ written := [], disposed := false }) st2.termInstances,
             termSockets := mapSet sid ({ closed := false }) st2.termSockets }

/-- WebSocket `onopen` handler (terminal.js lines 325–335). -/
def termSocketOnOpen (sid : Nat) (containerName : String)
    (st : ConsoleState) : ConsoleState :=
  let st1 := setStatus sid "Connected" "console-status console-status-connected" st
  let st2 := termWriteln sid ("Connected to " ++ containerName) st1
  termWriteln sid "" st2

/-- WebSocket `onmessage` handler (terminal.js lines 337–341): write the
received data straight to the terminal. -/
def termSocketOnMessage (sid : Nat) (data : String) (st : ConsoleState) : ConsoleState :=
  termWrite sid data st

/-- WebSocket `onerror` handler (terminal.js lines 343–358): error
status, red banner line in the grid, and a scheduled
`closeTab` after `CONNECTION_ERROR_DELAY`. -/
def termSocketOnError (sid : Nat) (st : ConsoleState) : ConsoleState :=
  let st1 := setStatus sid "Connection Error" "console-status console-status-error" st
  let st2 := termWriteln sid "\r\n\x1b[1;31mConnection error\x1b[0m\r\n" st1
  { st2 with pendingCloses := st2.pendingCloses ++ [(sid, CONNECTION_ERROR_DELAY)] }

/-- WebSocket `onclose` handler (terminal.js lines 360–375): disconnected
status, yellow banner line, and a scheduled `closeTab` after
`CONNECTION_CLOSE_DELAY`. -/
def termSocketOnClose (sid : Nat) (st : ConsoleState) : ConsoleState :=
  let st1 := setStatus sid "Disconnected" "console-status console-status-error" st
  let st2 := termWriteln sid "\r\n\x1b[1;33mConnection closed\x1b[0m\r\n" st1
  { st2 with pendingCloses := st2.pendingCloses ++ [(sid, CONNECTION_CLOSE_DELAY)] }

/-- Process a finite sequence of inbound WebSocket messages for one text
session, in arrival order. -/
def processMessages (sid : Nat) (msgs : List String) (st : ConsoleState) : ConsoleState :=
  msgs.foldl (fun s d => termSocketOnMessage sid d s) st

/-! ### Control-action dispatchers -/

/-- Endpoint string of a management command, `/vm/${session.name}/${action}`. -/
def controlEndpoint (name action : String) : String :=
  "/vm/" ++ name ++ "/" ++ action

/-- JS truthiness of `result && result.status === 'success'`. -/
def isSuccess : Option ApiResult → Bool
  | some r => r.status == "success"
  | none => false

/-- `vncControl` (console-manager.js lines 336–349).  The awaited value
of `window.API.apiCall(endpoint, 'POST')` is passed in as `result`. -/
def vncControl (sid : Nat) (action : String) (result : Option ApiResult)
    (st : ConsoleState) : ConsoleState :=
  match mapLookup sid st.consoleSessions with
  | none => st
  | some session =>
    if session.kind ≠ SessionKind.vnc then st
    else
      let st1 := { st with apiCalls :=
        st.apiCalls ++ [(controlEndpoint session.name action, "POST")] }
      if isSuccess result then
        let st2 := showStatus ("VM " ++ action ++ " command sent") "success" st1
        if action == "stop" || action == "destroy" then
          { st2 with pendingCloses := st2.pendingCloses ++ [(sid, CONTROL_ACTION_DELAY)] }
        else st2
      else st1

/-- `terminalControl` (console-manager.js lines 354–367). -/
def terminalControl (sid : Nat) (action : String) (result : Option ApiResult)
    (st : ConsoleState) : ConsoleState :=
  match mapLookup sid st.consoleSessions with
  | none => st
  | some session =>
    if session.kind ≠ SessionKind.terminal then st
    else
      let st1 := { st with apiCalls :=
        st.apiCalls ++ [(controlEndpoint session.name action, "POST")] }
      if isSuccess result then
        let st2 := showStatus ("Container " ++ action ++ " command sent") "success" st1
        if action == "stop" || action == "destroy" then
          { st2 with pendingCloses := st2.pendingCloses ++ [(sid, CONTROL_ACTION_DELAY)] }
        else st2
      else st1

/-! ### Initial and demonstration states -/

/-- The page's state at load: all maps empty, no active session, the
console viewer hidden. -/
def initState : ConsoleState :=
  { consoleSessions := [], activeSessionId := none, consoleViewerHidden := true,
    tabs := [], containers := [], statusEls := [], uiBanners := [],
    rfbClients := [], vncSessions := [], disconnectedHandles := [],
    termInstances := [], termSockets := [], closedSockets := [],
    termSessions := [], pendingCloses := [], apiCalls := [],
    nextId := 0, nextHandle := 0 }

/-- Demo state: a graphical console opened for the running VM `vm1`
(display port 5901) from the fresh page state; its session id is 0. -/
def stVm1 : ConsoleState :=
  openConsole "vm1" SessionKind.vnc (some 5901) none initState

/-- Demo state: a text console for the container `lxc1` (session id 1)
opened on top of `stVm1`; `lxc1` is the foreground session. -/
def stTwo : ConsoleState :=
  openConsole "lxc1" SessionKind.terminal none none stVm1

/-- Demo state: `stTwo` with both transports launched — the VNC client
of session 0 is stored (handle 0) and the terminal and WebSocket of
session 1 are created. -/
def stTwoLive : ConsoleState :=
  launchTerminalInContainer 1 "lxc1" (initVncSessionConnect 0 stTwo)

/-- Demo state: a graphical console opened for the stopped VM `vm2` —
no display port is available, so the connect attempt must fail. -/
def stNoPort : ConsoleState :=
  openConsole "vm2" SessionKind.vnc none none initState

/-! ### Lemmas about the JS-Map helpers -/

theorem mapLookup_mapSet_self {α : Type} (k : Nat) (v : α) (m : List (Nat × α)) :
    mapLookup k (mapSet k v m) = some v := by
  induction m with
  | nil => simp [mapLookup, mapSet]
  | cons p m ih =>
    by_cases h : p.1 = k
    · simp [mapLookup, mapSet, h]
    · simp [mapLookup, mapSet, h, ih]

theorem mapLookup_mapSet_ne {α : Type} {k k' : Nat} (v : α) (m : List (Nat × α))
    (h : k' ≠ k) : mapLookup k (mapSet k' v m) = mapLookup k m := by
  induction m with
  | nil => simp [mapLookup, mapSet, h]
  | cons p m ih =>
    by_cases hp : p.1 = k'
    · simp [mapLookup, mapSet, hp, h]
    · simp only [mapSet, hp, if_false]
      by_cases hk : p.1 = k
      · simp [mapLookup, hk]
      · simp [mapLookup, hk, ih]

theorem mapLookup_mapErase_self {α : Type} (k : Nat) (m : List (Nat × α)) :
    mapLookup k (mapErase k m) = none := by
  induction m with
  | nil => simp [mapLookup, mapErase]
  | cons p m ih =>
    by_cases h : p.1 = k
    · simp [mapErase, h, ih]
    · simp [mapLookup, mapErase, h, ih]

theorem mapLookup_mapErase_ne {α : Type} {k k' : Nat} (m : List (Nat × α))
    (h : k' ≠ k) : mapLookup k (mapErase k' m) = mapLookup k m := by
  induction m with
  | nil => simp [mapErase]
  | cons p m ih =>
    by_cases hp : p.1 = k'
    · have hpk : p.1 ≠ k := by rw [hp]; exact h
      simp [mapLookup, mapErase, hp, hpk, ih, h]
    · simp [mapLookup, mapErase, hp, ih]

theorem mapErase_sublist {α : Type} (k : Nat) (m : List (Nat × α)) :
    List.Sublist (mapErase k m) m := by
  induction m with
  | nil => simp [mapErase]
  | cons p m ih =>
    by_cases h : p.1 = k
    · simp only [mapErase, h, if_true]
      exact ih.cons p
    · simp only [mapErase, h, if_false]
      exact ih.cons₂ p

theorem mapSet_of_not_mem {α : Type} {k : Nat} (v : α) {m : List (Nat × α)}
    (h : k ∉ m.map (·.1)) : mapSet k v m = m ++ [(k, v)] := by
  induction m with
  | nil => simp [mapSet]
  | cons p m ih =>
    simp only [List.map_cons, List.mem_cons, not_or] at h
    have hp : p.1 ≠ k := fun hc => h.1 hc.symm
    simp [mapSet, hp, ih h.2]

theorem mapLookup_eq_none_of_not_mem {α : Type} {k : Nat} {m : List (Nat × α)}
    (h : k ∉ m.map (·.1)) : mapLookup k m = none := by
  induction m with
  | nil => rfl
  | cons p m ih =>
    simp only [List.map_cons, List.mem_cons, not_or] at h
    have hp : p.1 ≠ k := fun hc => h.1 hc.symm
    simp [mapLookup, hp, ih h.2]

theorem mem_keys_of_mapLookup_some {α : Type} {k : Nat} {v : α}
    {m : List (Nat × α)} (h : mapLookup k m = some v) : k ∈ m.map (·.1) := by
  induction m with
  | nil => simp [mapLookup] at h
  | cons p m ih =>
    by_cases hp : p.1 = k
    · simp [hp]
    · simp only [mapLookup, hp, if_false] at h
      simp [ih h]

theorem keys_mapErase {α : Type} (k : Nat) (m : List (Nat × α)) :
    (mapErase k m).map (·.1) = (m.map (·.1)).filter (fun x => x != k) := by
  induction m with
  | nil => simp [mapErase]
  | cons p m ih =>
    by_cases h : p.1 = k
    · simp [mapErase, h, List.filter, ih]
    · simp only [mapErase, h, if_false, List.map_cons, List.filter, ih]
      have : (p.1 != k) = true := by simpa using h
      rw [this]

/-! ### Well-formedness of the session registry -/

/-- The sessionIds, in insertion order. -/
def sessionKeys (st : ConsoleState) : List Nat :=
  st.consoleSessions.map (·.1)

/-- The target names, in insertion order. -/
def sessionNames (st : ConsoleState) : List String :=
  st.consoleSessions.map (·.2.name)

/-- Well-formedness of the registry state, established at page load and
preserved by every operation: session ids are distinct, target names are
distinct (the per-target uniqueness invariant), tabs are exactly one per
session in the same order, and all ids were drawn from the counter. -/
def WF (st : ConsoleState) : Prop :=
  (sessionKeys st).Nodup ∧ (sessionNames st).Nodup ∧
  st.tabs = sessionKeys st ∧ ∀ k ∈ sessionKeys st, k < st.nextId

instance (st : ConsoleState) : Decidable (WF st) := by
  unfold WF; infer_instance

/-- Number of registered sessions attached to target `T`. -/
def countNamed (T : String) (st : ConsoleState) : Nat :=
  (st.consoleSessions.filter (fun p => p.2.name == T)).length

/-! ### Frame lemmas for the teardown path -/

theorem cleanupVnc_frame (sid : Nat) (st : ConsoleState) :
    (cleanupVncSession sid st).consoleSessions = st.consoleSessions ∧
    (cleanupVncSession sid st).tabs = st.tabs ∧
    (cleanupVncSession sid st).containers = st.containers ∧
    (cleanupVncSession sid st).activeSessionId = st.activeSessionId ∧
    (cleanupVncSession sid st).statusEls = st.statusEls ∧
    (cleanupVncSession sid st).nextId = st.nextId ∧
    (cleanupVncSession sid st).pendingCloses = st.pendingCloses ∧
    (cleanupVncSession sid st).uiBanners = st.uiBanners ∧
    (cleanupVncSession sid st).consoleViewerHidden = st.consoleViewerHidden := by
  unfold cleanupVncSession
  cases mapLookup sid st.rfbClients <;> simp

theorem cleanupTerminal_frame (sid : Nat) (st : ConsoleState) :
    (cleanupTerminalSession sid st).consoleSessions = st.consoleSessions ∧
    (cleanupTerminalSession sid st).tabs = st.tabs ∧
    (cleanupTerminalSession sid st).containers = st.containers ∧
    (cleanupTerminalSession sid st).activeSessionId = st.activeSessionId ∧
    (cleanupTerminalSession sid st).statusEls = st.statusEls ∧
    (cleanupTerminalSession sid st).nextId = st.nextId ∧
    (cleanupTerminalSession sid st).pendingCloses = st.pendingCloses ∧
    (cleanupTerminalSession sid st).uiBanners = st.uiBanners ∧
    (cleanupTerminalSession sid st).consoleViewerHidden = st.consoleViewerHidden := by
  unfold cleanupTerminalSession
  cases h1 : mapLookup sid st.termSockets <;>
    cases h2 : mapLookup sid
      (match mapLookup sid st.termSockets with
        | some _ =>
          { st with closedSockets := st.closedSockets ++ [sid],
                    termSockets := mapErase sid st.termSockets }
        | none => st).termInstances <;>
    simp_all

theorem closeTabFinish_sessions (sid : Nat) (st1 : ConsoleState) :
    (closeTabFinish sid st1).consoleSessions = mapErase sid st1.consoleSessions := by
  unfold closeTabFinish
  dsimp only
  split
  · split <;> simp_all [switchToTab]
  · rfl

theorem closeTabFinish_tabs (sid : Nat) (st1 : ConsoleState) :
    (closeTabFinish sid st1).tabs = st1.tabs.filter (fun t => t != sid) := by
  unfold closeTabFinish
  dsimp only
  split
  · split <;> simp_all [switchToTab]
  · rfl

theorem closeTabFinish_pendingCloses (sid : Nat) (st1 : ConsoleState) :
    (closeTabFinish sid st1).pendingCloses = st1.pendingCloses := by
  unfold closeTabFinish
  dsimp only
  split
  · split <;> simp_all [switchToTab]
  · rfl

theorem closeTabFinish_uiBanners (sid : Nat) (st1 : ConsoleState) :
    (closeTabFinish sid st1).uiBanners = st1.uiBanners := by
  unfold closeTabFinish
  dsimp only
  split
  · split <;> simp_all [switchToTab]
  · rfl

theorem closeTabFinish_nextId (sid : Nat) (st1 : ConsoleState) :
    (closeTabFinish sid st1).nextId = st1.nextId := by
  unfold closeTabFinish
  dsimp only
  split
  · split <;> simp_all [switchToTab]
  · rfl

theorem closeTabFinish_disconnectedHandles (sid : Nat) (st1 : ConsoleState) :
    (closeTabFinish sid st1).disconnectedHandles = st1.disconnectedHandles := by
  unfold closeTabFinish
  dsimp only
  split
  · split <;> simp_all [switchToTab]
  · rfl

/-- `closeTab` on an unknown session id is the identity
(console-manager.js lines 166–170: warn and return). -/
theorem closeTab_noop_of_none {sid : Nat} {st : ConsoleState}
    (h : mapLookup sid st.consoleSessions = none) : closeTab sid st = st := by
  unfold closeTab
  rw [h]

theorem closeTab_sessions_of_some {sid : Nat} {st : ConsoleState} {sess : Session}
    (h : mapLookup sid st.consoleSessions = some sess) :
    (closeTab sid st).consoleSessions = mapErase sid st.consoleSessions := by
  unfold closeTab
  rw [h]
  cases hk : sess.kind <;>
    simp [hk, closeTabFinish_sessions, (cleanupVnc_frame sid st).1,
      (cleanupTerminal_frame sid st).1]

theorem closeTab_lookup_self (sid : Nat) (st : ConsoleState) :
    mapLookup sid (closeTab sid st).consoleSessions = none := by
  cases h : mapLookup sid st.consoleSessions with
  | none => rw [closeTab_noop_of_none h, h]
  | some sess => rw [closeTab_sessions_of_some h, mapLookup_mapErase_self]

theorem closeTab_pendingCloses (sid : Nat) (st : ConsoleState) :
    (closeTab sid st).pendingCloses = st.pendingCloses := by
  unfold closeTab
  cases h : mapLookup sid st.consoleSessions with
  | none => rfl
  | some sess =>
    cases hk : sess.kind <;>
      simp [hk, closeTabFinish_pendingCloses, (cleanupVnc_frame sid st).2.2.2.2.2.2.1,
        (cleanupTerminal_frame sid st).2.2.2.2.2.2.1]

theorem closeTab_uiBanners (sid : Nat) (st : ConsoleState) :
    (closeTab sid st).uiBanners = st.uiBanners := by
  unfold closeTab
  cases h : mapLookup sid st.consoleSessions with
  | none => rfl
  | some sess =>
    cases hk : sess.kind <;>
      simp [hk, closeTabFinish_uiBanners, (cleanupVnc_frame sid st).2.2.2.2.2.2.2.1,
        (cleanupTerminal_frame sid st).2.2.2.2.2.2.2.1]

theorem closeTab_tabs_of_some {sid : Nat} {st : ConsoleState} {sess : Session}
    (h : mapLookup sid st.consoleSessions = some sess) :
    (closeTab sid st).tabs = st.tabs.filter (fun t => t != sid) := by
  unfold closeTab
  rw [h]
  cases hk : sess.kind <;>
    simp [hk, closeTabFinish_tabs, (cleanupVnc_frame sid st).2.1,
      (cleanupTerminal_frame sid st).2.1]

theorem closeTab_nextId (sid : Nat) (st : ConsoleState) :
    (closeTab sid st).nextId = st.nextId := by
  unfold closeTab
  cases h : mapLookup sid st.consoleSessions with
  | none => rfl
  | some sess =>
    cases hk : sess.kind <;>
      simp [hk, closeTabFinish_nextId, (cleanupVnc_frame sid st).2.2.2.2.2.1,
        (cleanupTerminal_frame sid st).2.2.2.2.2.1]

/-! ### Properties of `findSessionByName` -/

theorem not_mem_names_of_find_none {T : String} {st : ConsoleState}
    (h : findSessionByName T st = none) : T ∉ sessionNames st := by
  unfold findSessionByName at h
  rw [Option.map_eq_none'] at h
  rw [List.find?_eq_none] at h
  intro hmem
  obtain ⟨q, hq, hname⟩ := List.mem_map.mp hmem
  have hq2 := h q hq
  simp [hname] at hq2

theorem find_eq_entry {T : String} {st : ConsoleState} {sid : Nat}
    (h : findSessionByName T st = some sid) :
    ∃ q, st.consoleSessions.find? (fun p => p.2.name == T) = some q ∧
      q.1 = sid ∧ q ∈ st.consoleSessions ∧ q.2.name = T := by
  unfold findSessionByName at h
  cases hf : st.consoleSessions.find? (fun p => p.2.name == T) with
  | none => rw [hf] at h; simp at h
  | some q =>
    rw [hf] at h
    simp only [Option.map_some', Option.some.injEq] at h
    refine ⟨q, rfl, h, List.mem_of_find?_eq_some hf, ?_⟩
    have := List.find?_some hf
    simpa using this

theorem mem_keys_of_find_some {T : String} {st : ConsoleState} {sid : Nat}
    (h : findSessionByName T st = some sid) : sid ∈ sessionKeys st := by
  obtain ⟨q, _, hq1, hqmem, _⟩ := find_eq_entry h
  exact List.mem_map.mpr ⟨q, hqmem, hq1⟩

/-! ### Counting sessions per target -/

theorem filter_name_eq_nil {l : List (Nat × Session)} {T : String}
    (h : T ∉ l.map (·.2.name)) : l.filter (fun p => p.2.name == T) = [] := by
  induction l with
  | nil => rfl
  | cons q l ih =>
    simp only [List.map_cons, List.mem_cons, not_or] at h
    have hq : (q.2.name == T) = false := by
      simpa using fun hc => h.1 hc.symm
    simp [List.filter, hq, ih h.2]

theorem filter_names_le_one {l : List (Nat × Session)} {T : String}
    (h : (l.map (·.2.name)).Nodup) :
    (l.filter (fun p => p.2.name == T)).length ≤ 1 := by
  induction l with
  | nil => simp
  | cons q l ih =>
    simp only [List.map_cons, List.nodup_cons] at h
    by_cases hq : q.2.name = T
    · have hfil : l.filter (fun p => p.2.name == T) = [] := by
        apply filter_name_eq_nil
        rw [hq] at h
        exact h.1
      simp [List.filter, hq, hfil]
    · have hq' : (q.2.name == T) = false := by simpa using hq
      simp only [List.filter, hq']
      exact ih h.2

theorem countNamed_le_one {T : String} {st : ConsoleState}
    (h : (sessionNames st).Nodup) : countNamed T st ≤ 1 :=
  filter_names_le_one h

theorem countNamed_eq_zero_of_find_none {T : String} {st : ConsoleState}
    (h : findSessionByName T st = none) : countNamed T st = 0 := by
  unfold countNamed
  rw [filter_name_eq_nil (not_mem_names_of_find_none h)]
  rfl

theorem countNamed_pos_of_find_some {T : String} {st : ConsoleState} {sid : Nat}
    (h : findSessionByName T st = some sid) : 1 ≤ countNamed T st := by
  obtain ⟨q, _, _, hqmem, hqname⟩ := find_eq_entry h
  unfold countNamed
  have : q ∈ st.consoleSessions.filter (fun p => p.2.name == T) :=
    List.mem_filter.mpr ⟨hqmem, by simp [hqname]⟩
  exact List.length_pos.mpr (List.ne_nil_of_mem this)

/-! ### Preservation of well-formedness -/

theorem nextId_not_mem_keys {st : ConsoleState} (h : WF st) :
    st.nextId ∉ sessionKeys st :=
  fun hm => absurd (h.2.2.2 _ hm) (lt_irrefl _)

/-- The fresh-target branch of `openConsole` appends the new session at
the end of the registry. -/
theorem openConsole_fresh_sessions (T : String) (kd : SessionKind) (p : Option Nat)
    (i : Option String) {st : ConsoleState} (hwf : WF st)
    (hf : findSessionByName T st = none) :
    (openConsole T kd p i st).consoleSessions =
      st.consoleSessions ++
        [(st.nextId, { id := st.nextId, name := T, kind := kd, port := p,
                       icon := i, inst := none })] := by
  unfold openConsole
  rw [hf]
  dsimp only [initSessionPane, setStatus, switchToTab, createTab]
  exact mapSet_of_not_mem _ (nextId_not_mem_keys hwf)

theorem openConsole_fresh_tabs (T : String) (kd : SessionKind) (p : Option Nat)
    (i : Option String) {st : ConsoleState}
    (hf : findSessionByName T st = none) :
    (openConsole T kd p i st).tabs = st.tabs ++ [st.nextId] := by
  unfold openConsole
  rw [hf]
  rfl

theorem openConsole_fresh_nextId (T : String) (kd : SessionKind) (p : Option Nat)
    (i : Option String) {st : ConsoleState}
    (hf : findSessionByName T st = none) :
    (openConsole T kd p i st).nextId = st.nextId + 1 := by
  unfold openConsole
  rw [hf]
  rfl

theorem WF_openConsole (T : String) (kd : SessionKind) (p : Option Nat)
    (i : Option String) {st : ConsoleState} (h : WF st) :
    WF (openConsole T kd p i st) := by
  obtain ⟨hkeys, hnames, htabs, hfresh⟩ := h
  cases hf : findSessionByName T st with
  | some e =>
    unfold openConsole
    rw [hf]
    exact ⟨hkeys, hnames, htabs, hfresh⟩
  | none =>
    have hT : T ∉ sessionNames st := not_mem_names_of_find_none hf
    have hnid : st.nextId ∉ sessionKeys st :=
      nextId_not_mem_keys ⟨hkeys, hnames, htabs, hfresh⟩
    have hsess := openConsole_fresh_sessions T kd p i ⟨hkeys, hnames, htabs, hfresh⟩ hf
    have htab2 := openConsole_fresh_tabs T kd p i hf
    have hnid2 := openConsole_fresh_nextId T kd p i hf
    refine ⟨?_, ?_, ?_, ?_⟩
    · unfold sessionKeys
      rw [hsess, List.map_append, List.nodup_append]
      refine ⟨hkeys, List.nodup_singleton _, ?_⟩
      unfold sessionKeys at hnid
      simp only [List.map_cons, List.map_nil, List.disjoint_singleton]
      exact hnid
    · unfold sessionNames
      rw [hsess, List.map_append, List.nodup_append]
      refine ⟨hnames, List.nodup_singleton _, ?_⟩
      unfold sessionNames at hT
      simp only [List.map_cons, List.map_nil, List.disjoint_singleton]
      exact hT
    · unfold sessionKeys
      rw [hsess, htab2, List.map_append, htabs]
      rfl
    · unfold sessionKeys
      rw [hsess, hnid2, List.map_append]
      intro k hk
      rcases List.mem_append.mp hk with hk | hk
      · exact Nat.lt_succ_of_lt (hfresh k hk)
      · simp only [List.map_cons, List.map_nil, List.mem_singleton] at hk
        subst hk
        exact Nat.lt_succ_self _

theorem WF_closeTab (sid : Nat) {st : ConsoleState} (h : WF st) :
    WF (closeTab sid st) := by
  obtain ⟨hkeys, hnames, htabs, hfresh⟩ := h
  cases hl : mapLookup sid st.consoleSessions with
  | none =>
    rw [closeTab_noop_of_none hl]
    exact ⟨hkeys, hnames, htabs, hfresh⟩
  | some sess =>
    have hsess := closeTab_sessions_of_some hl
    have htab2 := closeTab_tabs_of_some hl
    have hnid := closeTab_nextId sid st
    refine ⟨?_, ?_, ?_, ?_⟩
    · unfold sessionKeys
      rw [hsess, keys_mapErase]
      exact hkeys.filter _
    · unfold sessionNames
      rw [hsess]
      exact List.Nodup.sublist ((mapErase_sublist sid _).map _) hnames
    · unfold sessionKeys
      rw [htab2, htabs, hsess, keys_mapErase]
      rfl
    · unfold sessionKeys
      rw [hsess, keys_mapErase, hnid]
      intro k hk
      exact hfresh k (List.mem_of_mem_filter hk)

/-! ### Further helper lemmas shared by the claim theorems -/

theorem openConsole_found {T : String} {st : ConsoleState} {sid : Nat}
    (h : findSessionByName T st = some sid) (kd : SessionKind) (p : Option Nat)
    (i : Option String) :
    openConsole T kd p i st = { st with activeSessionId := some sid } := by
  unfold openConsole
  rw [h]
  rfl

theorem closeTabFinish_active_self {sid : Nat} {st1 : ConsoleState}
    (h : st1.activeSessionId = some sid) :
    (closeTabFinish sid st1).activeSessionId =
      (mapErase sid st1.consoleSessions).head?.map (·.1) ∧
    (mapErase sid st1.consoleSessions = [] →
      (closeTabFinish sid st1).consoleViewerHidden = true) := by
  unfold closeTabFinish
  dsimp only
  rw [if_pos h]
  cases he : mapErase sid st1.consoleSessions with
  | nil => simp [he]
  | cons q l => simp [he, switchToTab]

theorem closeTabFinish_active_other {sid : Nat} {st1 : ConsoleState}
    (h : ¬st1.activeSessionId = some sid) :
    (closeTabFinish sid st1).activeSessionId = st1.activeSessionId := by
  unfold closeTabFinish
  dsimp only
  rw [if_neg h]

theorem closeTab_disconnectedHandles_vnc {sid : Nat} {st : ConsoleState}
    {sess : Session} {h : Nat}
    (hs : mapLookup sid st.consoleSessions = some sess)
    (hk : sess.kind = SessionKind.vnc)
    (hr : mapLookup sid st.rfbClients = some h) :
    (closeTab sid st).disconnectedHandles = st.disconnectedHandles ++ [h] := by
  unfold closeTab
  rw [hs]
  simp [hk, closeTabFinish_disconnectedHandles, cleanupVncSession, hr]

/-! ### Claim theorems -/

/-- **C6**: `closeTab` is idempotent.  After a `closeTab sid` the session
id is gone from the registry, so a second `closeTab sid` hits the
early-return branch and is a complete no-op: the whole state — registry,
foreground selection, and every remaining session's transport maps — is
exactly the state after the first close. -/
theorem closeTab_idempotent (sid : Nat) (st : ConsoleState) :
    closeTab sid (closeTab sid st) = closeTab sid st :=
  closeTab_noop_of_none (closeTab_lookup_self sid st)

/-- **C10**: `openConsole` on a target that already has a session leaves
the entire state — in particular every stored field of the existing
session (id, kind, port, icon, transport instance) — unchanged, except
that the existing session becomes the foreground one. -/
theorem openConsole_existing_session_frame (T : String) (kd : SessionKind)
    (p : Option Nat) (i : Option String) (st : ConsoleState) (sid : Nat)
    (h : findSessionByName T st = some sid) :
    openConsole T kd p i st = { st with activeSessionId := some sid } :=
  openConsole_found h kd p i

/-- Witness for C10: reopening `vm1` as a text console with a different
port and icon only switches the foreground back to session 0. -/
theorem openConsole_existing_session_frame_witness :
    openConsole "vm1" SessionKind.terminal (some 7) (some "x") stTwo =
      { stTwo with activeSessionId := some 0 } :=
  openConsole_existing_session_frame "vm1" SessionKind.terminal (some 7)
    (some "x") stTwo 0 (by decide)

/-- **C9**: dispatching a control action for an unknown session id, or
through the dispatcher of the other kind, is a complete no-op: the state
is returned unchanged, so in particular no management command is sent
(the `apiCalls` log is part of the state) and no session, registry or
foreground state changes. -/
theorem control_dispatch_mismatch_noop (st : ConsoleState) (sid : Nat)
    (action : String) (result : Option ApiResult) :
    (mapLookup sid st.consoleSessions = none →
      vncControl sid action result st = st ∧
      terminalControl sid action result st = st) ∧
    (∀ sess, mapLookup sid st.consoleSessions = some sess →
      (sess.kind ≠ SessionKind.vnc → vncControl sid action result st = st) ∧
      (sess.kind ≠ SessionKind.terminal → terminalControl sid action result st = st)) := by
  constructor
  · intro h
    constructor
    · unfold vncControl
      rw [h]
    · unfold terminalControl
      rw [h]
  · intro sess h
    constructor
    · intro hk
      unfold vncControl
      rw [h]
      simp [hk]
    · intro hk
      unfold terminalControl
      rw [h]
      simp [hk]

/-- Witness for C9: `vncControl` aimed at the text session 1 of the
demo state changes nothing, even though the command would succeed. -/
theorem control_dispatch_mismatch_noop_witness :
    vncControl 1 "stop" (some ⟨"success"⟩) stTwo = stTwo :=
  ((control_dispatch_mismatch_noop stTwo 1 "stop" (some ⟨"success"⟩)).2
    ⟨1, "lxc1", SessionKind.terminal, none, none, none⟩ (by decide)).1 (by decide)

/-- **C7**: a graphical open whose port is absent or zero fails with the
`TargetUnavailable`-style error before any connection attempt:
`launchVncInContainer` throws as its very first statement, so no RFB
client is ever created (the handle counter is untouched) and nothing is
inserted into the `rfbClients` transport-handle map (nor into
`vncSessions`); the only observable effect of the whole connect attempt
is the error banner shown by the caller's catch block. -/
theorem vnc_open_no_port_no_transport (st : ConsoleState) (sid : Nat)
    (sess : Session)
    (hs : mapLookup sid st.consoleSessions = some sess)
    (hp : portMissing sess.port = true) :
    launchVncInContainer sid sess.name sess.port st =
      Except.error "VNC port not available for this VM" ∧
    initVncSessionConnect sid st =
      showStatus "VNC connection failed: VNC port not available for this VM"
        "error" st ∧
    (initVncSessionConnect sid st).rfbClients = st.rfbClients ∧
    (initVncSessionConnect sid st).nextHandle = st.nextHandle ∧
    (initVncSessionConnect sid st).vncSessions = st.vncSessions := by
  have h1 : launchVncInContainer sid sess.name sess.port st =
      Except.error "VNC port not available for this VM" := by
    unfold launchVncInContainer
    rw [hp]
    rfl
  have h2 : initVncSessionConnect sid st =
      showStatus "VNC connection failed: VNC port not available for this VM"
        "error" st := by
    unfold initVncSessionConnect
    rw [hs]
    dsimp only
    rw [h1]
    rfl
  exact ⟨h1, h2, by rw [h2]; rfl, by rw [h2]; rfl, by rw [h2]; rfl⟩

/-- Witness for C7 on the demo state `stNoPort` (target `vm2`, no
display port): the connect attempt reports the error and leaves the
transport maps empty. -/
theorem vnc_open_no_port_no_transport_witness :
    launchVncInContainer 0 "vm2" none stNoPort =
      Except.error "VNC port not available for this VM" ∧
    (initVncSessionConnect 0 stNoPort).rfbClients = [] := by
  have h := vnc_open_no_port_no_transport stNoPort 0
    ⟨0, "vm2", SessionKind.vnc, none, none, none⟩ (by decide) (by decide)
  exact ⟨h.1, h.2.2.1.trans (by decide)⟩

/-- **C8**: for a text session, the strings handed to the character-grid
renderer are exactly the inbound transport messages appended in arrival
order — nothing is reordered, dropped or duplicated. -/
theorem term_messages_rendered_in_order (sid : Nat) (msgs : List String)
    (st : ConsoleState) (t : Term)
    (h : mapLookup sid st.termInstances = some t) :
    mapLookup sid (processMessages sid msgs st).termInstances =
      some { t with written := t.written ++ msgs } := by
  induction msgs generalizing st t with
  | nil => simpa [processMessages] using h
  | cons d msgs ih =>
    have hstep : mapLookup sid (termSocketOnMessage sid d st).termInstances =
        some { t with written := t.written ++ [d] } := by
      unfold termSocketOnMessage termWrite
      rw [h]
      exact mapLookup_mapSet_self sid _ st.termInstances
    have hrec := ih (termSocketOnMessage sid d st) _ hstep
    unfold processMessages at hrec ⊢
    simpa [List.append_assoc] using hrec

/-- Witness for C8 on the demo state: the terminal of session 1 renders
the labeled sequence `a`, `b`, `c` exactly in order. -/
theorem term_messages_rendered_in_order_witness :
    mapLookup 1 (processMessages 1 ["a", "b", "c"] stTwoLive).termInstances =
      some { written := ["a", "b", "c"], disposed := false } := by
  have h := term_messages_rendered_in_order 1 ["a", "b", "c"] stTwoLive
    ⟨[], false⟩ (by decide)
  simpa using h

/-- **C4**: for a `stop` or `destroy` (force-stop) verb on a session of
the dispatcher's own kind, teardown is scheduled after the 2-second
grace delay exactly when the management command reports success; on a
failed or falsy result the only state change is the logged request —
sessions, registry, foreground and timers are untouched. -/
theorem controlAction_teardown_iff_success (st : ConsoleState) (sid : Nat)
    (sess : Session) (action : String) (result : Option ApiResult)
    (hs : mapLookup sid st.consoleSessions = some sess)
    (ha : action = "stop" ∨ action = "destroy") :
    (sess.kind = SessionKind.vnc →
      vncControl sid action result st =
        (if isSuccess result then
          { st with
            apiCalls := st.apiCalls ++ [(controlEndpoint sess.name action, "POST")],
            uiBanners := st.uiBanners ++ [("VM " ++ action ++ " command sent", "success")],
            pendingCloses := st.pendingCloses ++ [(sid, CONTROL_ACTION_DELAY)] }
         else
          { st with
            apiCalls := st.apiCalls ++ [(controlEndpoint sess.name action, "POST")] })) ∧
    (sess.kind = SessionKind.terminal →
      terminalControl sid action result st =
        (if isSuccess result then
          { st with
            apiCalls := st.apiCalls ++ [(controlEndpoint sess.name action, "POST")],
            uiBanners := st.uiBanners ++ [("Container " ++ action ++ " command sent", "success")],
            pendingCloses := st.pendingCloses ++ [(sid, CONTROL_ACTION_DELAY)] }
         else
          { st with
            apiCalls := st.apiCalls ++ [(controlEndpoint sess.name action, "POST")] })) := by
  have hact : (action == "stop" || action == "destroy") = true := by
    rcases ha with h | h <;> simp [h]
  constructor
  · intro hk
    unfold vncControl
    rw [hs]
    cases hres : isSuccess result <;>
      simp [hk, hres, hact, showStatus]
  · intro hk
    unfold terminalControl
    rw [hs]
    cases hres : isSuccess result <;>
      simp [hk, hres, hact, showStatus]

/-- Witness for C4: a successful `stop` on the graphical session 0 of
the demo state logs the command, shows the banner and schedules the
2-second teardown. -/
theorem controlAction_teardown_iff_success_witness :
    vncControl 0 "stop" (some ⟨"success"⟩) stTwo =
      { stTwo with
        apiCalls := stTwo.apiCalls ++ [(controlEndpoint "vm1" "stop", "POST")],
        uiBanners := stTwo.uiBanners ++ [("VM stop command sent", "success")],
        pendingCloses := stTwo.pendingCloses ++ [(0, CONTROL_ACTION_DELAY)] } := by
  have h := (controlAction_teardown_iff_success stTwo 0
    ⟨0, "vm1", SessionKind.vnc, some 5901, none, none⟩ "stop" (some ⟨"success"⟩)
    (by decide) (Or.inl rfl)).1 rfl
  simpa using h

/-- **C5**: closing the foreground session selects the oldest remaining
session — the head of the registry in insertion order — as the new
foreground; closing the last remaining session hides the console surface
and leaves no foreground; closing a non-foreground session never changes
the foreground. -/
theorem closeTab_foreground_selection (st : ConsoleState) (sid : Nat)
    (sess : Session) :
    (mapLookup sid st.consoleSessions = some sess →
      st.activeSessionId = some sid →
      ((mapErase sid st.consoleSessions ≠ [] →
          (closeTab sid st).activeSessionId =
            (mapErase sid st.consoleSessions).head?.map (·.1)) ∧
       (mapErase sid st.consoleSessions = [] →
          (closeTab sid st).activeSessionId = none ∧
          (closeTab sid st).consoleViewerHidden = true))) ∧
    (st.activeSessionId ≠ some sid →
      (closeTab sid st).activeSessionId = st.activeSessionId) := by
  constructor
  · intro hs hact
    have hred : ∀ st1 : ConsoleState,
        st1.activeSessionId = st.activeSessionId →
        st1.consoleSessions = st.consoleSessions →
        (closeTabFinish sid st1).activeSessionId =
          (mapErase sid st.consoleSessions).head?.map (·.1) ∧
        (mapErase sid st.consoleSessions = [] →
          (closeTabFinish sid st1).consoleViewerHidden = true) := by
      intro st1 h1 h2
      have := @closeTabFinish_active_self sid st1 (by rw [h1, hact])
      rw [h2] at this
      exact this
    have hmain : (closeTab sid st).activeSessionId =
        (mapErase sid st.consoleSessions).head?.map (·.1) ∧
        (mapErase sid st.consoleSessions = [] →
          (closeTab sid st).consoleViewerHidden = true) := by
      unfold closeTab
      rw [hs]
      dsimp only
      cases hk : sess.kind
      · exact hred (cleanupVncSession sid st)
          (cleanupVnc_frame sid st).2.2.2.1 (cleanupVnc_frame sid st).1
      · exact hred (cleanupTerminalSession sid st)
          (cleanupTerminal_frame sid st).2.2.2.1 (cleanupTerminal_frame sid st).1
    constructor
    · intro _
      exact hmain.1
    · intro hnil
      refine ⟨?_, hmain.2 hnil⟩
      rw [hmain.1, hnil]
      rfl
  · intro hne
    cases hl : mapLookup sid st.consoleSessions with
    | none => rw [closeTab_noop_of_none hl]
    | some q =>
      unfold closeTab
      rw [hl]
      dsimp only
      cases hk : q.kind
      · have hfin := @closeTabFinish_active_other sid (cleanupVncSession sid st)
          (by rw [(cleanupVnc_frame sid st).2.2.2.1]; exact hne)
        dsimp only
        rw [hfin, (cleanupVnc_frame sid st).2.2.2.1]
      · have hfin := @closeTabFinish_active_other sid (cleanupTerminalSession sid st)
          (by rw [(cleanupTerminal_frame sid st).2.2.2.1]; exact hne)
        dsimp only
        rw [hfin, (cleanupTerminal_frame sid st).2.2.2.1]

/-- Witness for C5: closing the foreground session 1 (`lxc1`) of the
two-session demo state makes the older session 0 (`vm1`) foreground. -/
theorem closeTab_foreground_selection_witness :
    (closeTab 1 stTwo).activeSessionId = some 0 := by
  have h := (((closeTab_foreground_selection stTwo 1
    ⟨1, "lxc1", SessionKind.terminal, none, none, none⟩).1
    (by decide) (by decide)).1 (by decide))
  exact h.trans (by decide)

/-- **C1**: per-target uniqueness of sessions.  In any well-formed state
at most one session exists per target; opening a console for `T` leaves
exactly one session for `T`, with exactly one tab; and a second
`openConsole` for `T` without an intervening `closeTab` allocates
nothing — it returns the same registry and merely switches the
foreground to the existing session. -/
theorem openConsole_per_target_unique (T : String) (k1 k2 : SessionKind)
    (p1 p2 : Option Nat) (i1 i2 : Option String) (st : ConsoleState)
    (hwf : WF st) :
    countNamed T st ≤ 1 ∧
    countNamed T (openConsole T k1 p1 i1 st) = 1 ∧
    ∃ sid,
      findSessionByName T (openConsole T k1 p1 i1 st) = some sid ∧
      (openConsole T k1 p1 i1 st).tabs.count sid = 1 ∧
      openConsole T k2 p2 i2 (openConsole T k1 p1 i1 st) =
        { openConsole T k1 p1 i1 st with activeSessionId := some sid } := by
  obtain ⟨hkeys, hnames, htabs, hfresh⟩ := hwf
  refine ⟨countNamed_le_one hnames, ?_⟩
  have hwf1 : WF (openConsole T k1 p1 i1 st) :=
    WF_openConsole T k1 p1 i1 ⟨hkeys, hnames, htabs, hfresh⟩
  cases hf : findSessionByName T st with
  | some e =>
    have heq : openConsole T k1 p1 i1 st = { st with activeSessionId := some e } :=
      openConsole_found hf k1 p1 i1
    have hfind1 : findSessionByName T (openConsole T k1 p1 i1 st) = some e := by
      rw [heq]
      exact hf
    refine ⟨?_, e, hfind1, ?_, openConsole_found hfind1 k2 p2 i2⟩
    · rw [heq]
      exact le_antisymm (countNamed_le_one hnames) (countNamed_pos_of_find_some hf)
    · rw [heq]
      show st.tabs.count e = 1
      rw [htabs]
      exact List.count_eq_one_of_mem hkeys (mem_keys_of_find_some hf)
  | none =>
    have hwf0 : WF st := ⟨hkeys, hnames, htabs, hfresh⟩
    have hsess := openConsole_fresh_sessions T k1 p1 i1 hwf0 hf
    have hfil0 : st.consoleSessions.filter (fun p => p.2.name == T) = [] :=
      filter_name_eq_nil (not_mem_names_of_find_none hf)
    have hfnone : st.consoleSessions.find? (fun p => p.2.name == T) = none := by
      unfold findSessionByName at hf
      exact Option.map_eq_none'.mp hf
    have hfind1 : findSessionByName T (openConsole T k1 p1 i1 st) = some st.nextId := by
      unfold findSessionByName
      rw [hsess, List.find?_append, hfnone]
      simp
    refine ⟨?_, st.nextId, hfind1, ?_, openConsole_found hfind1 k2 p2 i2⟩
    · unfold countNamed
      rw [hsess, List.filter_append, hfil0]
      simp
    · rw [openConsole_fresh_tabs T k1 p1 i1 hf, htabs]
      rw [List.count_append]
      have hnid : st.nextId ∉ sessionKeys st := nextId_not_mem_keys hwf0
      simp [List.count_eq_zero.mpr hnid]

/-- Witness for C1: opening `vm1` twice from the fresh page state yields
one session and one tab, the second call only switching the foreground. -/
theorem openConsole_per_target_unique_witness :
    countNamed "vm1" (openConsole "vm1" SessionKind.vnc (some 5901) none initState) = 1 := by
  have h := openConsole_per_target_unique "vm1" SessionKind.vnc SessionKind.vnc
    (some 5901) (some 5901) none none initState (by decide)
  exact h.2.1

/-- **C2 counterexample**: a *graphical* session whose Transport Bridge
connect fails is *not* auto-closed after 2 seconds.  Concretely, in
`stNoPort` (graphical session 0 for the stopped target `vm2`, connect
rejected for lack of a port) the whole effect of the failed connect is
one error banner: the tab's status indicator still shows
`Connecting...`, no delayed close is scheduled, and the session stays in
the registry. -/
theorem vnc_connect_failure_not_autoclosed_cex :
    initVncSessionConnect 0 stNoPort =
      showStatus "VNC connection failed: VNC port not available for this VM"
        "error" stNoPort ∧
    (initVncSessionConnect 0 stNoPort).pendingCloses = [] ∧
    (mapLookup 0 (initVncSessionConnect 0 stNoPort).consoleSessions).isSome = true ∧
    mapLookup 0 (initVncSessionConnect 0 stNoPort).statusEls =
      some ⟨"Connecting...", "console-status console-status-info"⟩ := by
  decide

/-- **C2 (amended)**: for *text* sessions a transport error sets the
tab's status indicator to the error state and schedules the automatic
close after the fixed 2-second delay, whose firing removes the session
from the registry; for *graphical* sessions no automatic close is ever
scheduled on connect failure — a rejected connect only shows a UI
banner, and an unclean disconnect only sets the error status. -/
theorem connect_failure_handling (st : ConsoleState) (sid : Nat)
    (sess : Session)
    (hs : mapLookup sid st.consoleSessions = some sess) :
    (mapLookup sid (termSocketOnError sid st).statusEls =
        some ⟨"Connection Error", "console-status console-status-error"⟩ ∧
     (termSocketOnError sid st).pendingCloses =
        st.pendingCloses ++ [(sid, CONNECTION_ERROR_DELAY)] ∧
     CONNECTION_ERROR_DELAY = 2000 ∧
     mapLookup sid (closeTab sid (termSocketOnError sid st)).consoleSessions = none) ∧
    (portMissing sess.port = true →
      initVncSessionConnect sid st =
        showStatus "VNC connection failed: VNC port not available for this VM"
          "error" st) ∧
    vncOnDisconnect sid false st =
      setStatus sid "Disconnected" "console-status console-status-error" st := by
  refine ⟨⟨?_, ?_, rfl, closeTab_lookup_self _ _⟩, ?_, rfl⟩
  · unfold termSocketOnError termWriteln termWrite setStatus
    dsimp only
    cases hti : mapLookup sid st.termInstances <;>
      simp [hti, mapLookup_mapSet_self]
  · unfold termSocketOnError termWriteln termWrite setStatus
    dsimp only
    cases hti : mapLookup sid st.termInstances <;> simp [hti]
  · intro hp
    have h1 : launchVncInContainer sid sess.name sess.port st =
        Except.error "VNC port not available for this VM" := by
      unfold launchVncInContainer
      rw [hp]
      rfl
    unfold initVncSessionConnect
    rw [hs]
    dsimp only
    rw [h1]
    rfl

/-- Witness for the amended C2 on the demo state: the terminal error
handler of text session 1 schedules the 2-second auto-close. -/
theorem connect_failure_handling_witness :
    (termSocketOnError 1 stTwoLive).pendingCloses =
      stTwoLive.pendingCloses ++ [(1, CONNECTION_ERROR_DELAY)] :=
  ((connect_failure_handling stTwoLive 1
    ⟨1, "lxc1", SessionKind.terminal, none, none, none⟩ (by decide)).1).2.1

/-- **C3 counterexample**: an *unclean* remote close of a connected
graphical session does *not* tear the session down, immediately or after
a delay.  Concretely, in the live two-session demo state the unclean
disconnect of session 0 only sets the status indicator: the session and
its transport handle stay registered and no delayed close is scheduled. -/
theorem vnc_unclean_close_no_teardown_cex :
    vncOnDisconnect 0 false stTwoLive =
      setStatus 0 "Disconnected" "console-status console-status-error" stTwoLive ∧
    (vncOnDisconnect 0 false stTwoLive).pendingCloses = [] ∧
    (mapLookup 0 (vncOnDisconnect 0 false stTwoLive).consoleSessions).isSome = true ∧
    (mapLookup 0 (vncOnDisconnect 0 false stTwoLive).rfbClients).isSome = true := by
  decide

/-- **C3 (amended)**: for a connected graphical session, a clean remote
close tears the session down silently and at once (`closeTab` is
invoked: the session leaves the registry, its transport handle is
disconnected, no close is scheduled and no banner shown); an unclean
close or error only displays the error state — the session is *not* torn
down and no delayed close is scheduled; an explicit local close tears
down immediately with no delay, likewise disconnecting the transport. -/
theorem vnc_disconnect_outcomes (st : ConsoleState) (sid : Nat)
    (sess : Session) (h : Nat)
    (hs : mapLookup sid st.consoleSessions = some sess)
    (hk : sess.kind = SessionKind.vnc)
    (hr : mapLookup sid st.rfbClients = some h) :
    (mapLookup sid (vncOnDisconnect sid true st).consoleSessions = none ∧
     (vncOnDisconnect sid true st).pendingCloses = st.pendingCloses ∧
     (vncOnDisconnect sid true st).uiBanners = st.uiBanners ∧
     (vncOnDisconnect sid true st).disconnectedHandles =
        st.disconnectedHandles ++ [h]) ∧
    vncOnDisconnect sid false st =
      setStatus sid "Disconnected" "console-status console-status-error" st ∧
    (mapLookup sid (closeTab sid st).consoleSessions = none ∧
     (closeTab sid st).pendingCloses = st.pendingCloses ∧
     (closeTab sid st).disconnectedHandles = st.disconnectedHandles ++ [h]) := by
  have hclean : vncOnDisconnect sid true st =
      closeTab sid (setStatus sid "Clean Disconnect"
        "console-status console-status-error" st) := rfl
  refine ⟨⟨?_, ?_, ?_, ?_⟩, rfl, closeTab_lookup_self _ _,
    closeTab_pendingCloses _ _, closeTab_disconnectedHandles_vnc hs hk hr⟩
  · rw [hclean]
    exact closeTab_lookup_self _ _
  · rw [hclean]
    exact closeTab_pendingCloses _ _
  · rw [hclean]
    exact closeTab_uiBanners _ _
  · rw [hclean]
    exact closeTab_disconnectedHandles_vnc hs hk hr

/-- Witness for the amended C3 on the demo state: the clean remote close
of the connected graphical session 0 removes it from the registry at
once. -/
theorem vnc_disconnect_outcomes_witness :
    mapLookup 0 (vncOnDisconnect 0 true stTwoLive).consoleSessions = none :=
  (vnc_disconnect_outcomes stTwoLive 0
    ⟨0, "vm1", SessionKind.vnc, some 5901, none, some 0⟩ 0
    (by decide) rfl (by decide)).1.1
